import Mathlib

/-!
Verification of the WebGL text renderer core (glyph atlas, geometry builder,
shader program registry) against its natural-language specification.

The definitions below are a shallow embedding of the TypeScript sources:
`src/glyphAtlas.ts`, `src/webglTextRenderer.ts`, `src/utils.ts`,
`src/shaderSource.ts`, `src/example.ts`.  JavaScript numbers are modelled by
`ℚ` (the renderer only performs field arithmetic, `Math.ceil`, `Math.round`,
`Math.max` on them); pixel coordinates and cell sizes are natural numbers.
Fallible methods (which `throw` in the source) return `Except String`.
-/

namespace WebGLText

/-! ## utils.ts -/

/-- Model of `toClip` from `src/utils.ts`:
`[(x / width) * 2 - 1, 1 - (y / height) * 2]`. -/
def toClip (x y width height : ℚ) : ℚ × ℚ :=
  ((x / width) * 2 - 1, 1 - (y / height) * 2)

/-- JavaScript `a || b` for numbers restricted to the values the renderer
feeds it (`0` is the only falsy value arising; `undefined` metrics are
modelled as `0`). -/
def jsOr (v fallback : ℚ) : ℚ :=
  if v = 0 then fallback else v

/-- JavaScript `a || b` for strings (`""` is falsy). -/
def jsOrString (v fallback : String) : String :=
  if v = "" then fallback else v

/-- Digit-string value, `none` on any non-digit.  `some 0` for the empty
string (callers decide emptiness separately). -/
def decDigits (s : String) : Option ℕ :=
  s.toList.foldl
    (fun acc c => acc.bind (fun n => if c.isDigit then some (10 * n + (c.toNat - 48)) else none))
    (some 0)

/-- JavaScript `Number(...)` restricted to the repertoire the renderer feeds
it: optionally signed decimal numerals (CSS pixel lengths such as `"16"` or
`"16.5"`).  Returns `none` where JavaScript would produce `NaN`. -/
def jsNumber (s : String) : Option ℚ :=
  if s = "" then some 0
  else
    let (neg, body) :=
      if s.startsWith "-" then (true, s.drop 1)
      else if s.startsWith "+" then (false, s.drop 1)
      else (false, s)
    let signed : ℚ → ℚ := fun q => if neg then -q else q
    match body.splitOn "." with
    | [a] =>
      if a = "" then none
      else (decDigits a).map (fun n => signed n)
    | [a, b] =>
      if a = "" ∧ b = "" then none
      else
        (decDigits a).bind (fun n =>
          (decDigits b).map (fun f =>
            signed ((n : ℚ) + (f : ℚ) / ((10 : ℚ) ^ b.length))))
    | _ => none

/-- Model of `parsePx` from `src/utils.ts`: strip a trailing `"px"` and parse the
number, falling back when the parse is not finite. -/
def parsePx (value : Option String) (fallback : ℚ) : ℚ :=
  match value with
  | none => fallback
  | some v =>
    if v.endsWith "px" then
      match jsNumber (v.dropRight 2) with
      | some n => n
      | none => fallback
    else
      match jsNumber v with
      | some n => n
      | none => fallback

/-! ## Data model (types.ts) -/

/-- The resolved font attributes of a `CSSStyleDeclaration` that the atlas
reads (`fontStyle`, `fontVariant`, `fontWeight`, `fontSize`, `fontFamily`). -/
structure FontStyle where
  fontStyle : String
  fontVariant : String
  fontWeight : String
  fontSize : String
  fontFamily : String
deriving DecidableEq, Repr

/-- Model of `CachedGlyph` from `src/types.ts`: either the empty (whitespace) record
or a packed glyph with UV rectangle, pixel size and baseline offsets. -/
inductive CachedGlyph where
  | empty : CachedGlyph
  | glyph (u0 v0 u1 v1 : ℚ) (w h : ℕ) (baselineX baselineY : ℚ) : CachedGlyph
deriving DecidableEq, Repr

/-- RGBA color tuple. -/
structure Rgba where
  r : ℚ
  g : ℚ
  b : ℚ
  a : ℚ
deriving DecidableEq, Repr

/-- A UV rectangle (used for the atlas `whitePixel` and quad UV bounds). -/
structure UVRect where
  u0 : ℚ
  v0 : ℚ
  u1 : ℚ
  v1 : ℚ
deriving DecidableEq, Repr

/-- Model of `GlyphPlacement` from `src/types.ts` (produced by the external layout
provider, consumed read-only by the geometry builder). -/
structure Placement where
  ch : String
  style : FontStyle
  x : ℚ
  y : ℚ
  boxX : ℚ
  boxY : ℚ
  boxW : ℚ
  boxH : ℚ
  color : Rgba
deriving DecidableEq, Repr

/-! ## Glyph atlas (glyphAtlas.ts) -/

/-- Fixed atlas width (`private readonly width = 4096`). -/
def atlasW : ℕ := 4096

/-- Fixed atlas height (`private readonly height = 4096`). -/
def atlasH : ℕ := 4096

/-- The mutable packing state of the atlas: shelf cursor `x`, `y` and the
tallest cell height `rowH` seen on the current shelf. -/
structure Cursor where
  x : ℕ
  y : ℕ
  rowH : ℕ
deriving DecidableEq, Repr

/-- Cursor state after the wrap check at the top of `allocGlyphSlot`
(`if (this.x + w >= this.width) { this.x = 2; this.y += this.rowH + 1;
this.rowH = 0; }`).  The source mutates `this` here, before the height
check, so a failing call still leaves the cursor wrapped. -/
def wrapCursor (c : Cursor) (w : ℕ) : Cursor :=
  if atlasW ≤ c.x + w then { x := 2, y := c.y + c.rowH + 1, rowH := 0 } else c

/-- Model of `GlyphAtlas.allocGlyphSlot`: returns the packed position (or `none`
where the source throws `"Glyph atlas full"`) together with the cursor as
the source leaves it. -/
def allocGlyphSlot (c : Cursor) (w h : ℕ) : Option (ℕ × ℕ) × Cursor :=
  if atlasH ≤ (wrapCursor c w).y + h then
    (none, wrapCursor c w)
  else
    (some ((wrapCursor c w).x, (wrapCursor c w).y),
      { x := (wrapCursor c w).x + w + 1
        y := (wrapCursor c w).y
        rowH := max (wrapCursor c w).rowH h })

/-- A packed cell: position and size in atlas pixels. -/
structure Rect where
  x : ℕ
  y : ℕ
  w : ℕ
  h : ℕ
deriving DecidableEq, Repr

/-- Run a sequence of allocations through the shelf allocator, collecting
the packed cells in request order; `none` as soon as one request raises
the atlas-full error. -/
def allocRun : Cursor → List (ℕ × ℕ) → Option (List Rect × Cursor)
  | c, [] => some ([], c)
  | c, (w, h) :: rest =>
    match allocGlyphSlot c w h with
    | (none, _) => none
    | (some pos, c') =>
      match allocRun c' rest with
      | none => none
      | some (rs, cf) => some (⟨pos.1, pos.2, w, h⟩ :: rs, cf)

/-- Two cells are separated by at least a one-pixel border: on some axis a
full empty pixel column/row lies between them. -/
def sep (a b : Rect) : Prop :=
  a.x + a.w + 1 ≤ b.x ∨ b.x + b.w + 1 ≤ a.x ∨ a.y + a.h + 1 ≤ b.y ∨ b.y + b.h + 1 ≤ a.y

instance (a b : Rect) : Decidable (sep a b) := by
  unfold sep
  infer_instance

/-- The UV rectangle of a packed cell, exactly as `getGlyph` computes it
(`slot.x / this.width`, …). -/
def uvRect (r : Rect) : UVRect :=
  { u0 := (r.x : ℚ) / (atlasW : ℚ)
    v0 := (r.y : ℚ) / (atlasH : ℚ)
    u1 := ((r.x + r.w : ℕ) : ℚ) / (atlasW : ℚ)
    v1 := ((r.y + r.h : ℕ) : ℚ) / (atlasH : ℚ) }

/-- Disjointness of closed UV rectangles. -/
def uvDisjoint (a b : UVRect) : Prop :=
  a.u1 < b.u0 ∨ b.u1 < a.u0 ∨ a.v1 < b.v0 ∨ b.v1 < a.v0

/-- The result of `measureText` that `getGlyph` reads.  A metric a browser
leaves `undefined` is modelled as `0` (both are replaced by the `||`
fallbacks, see `jsOr`). -/
structure TextMetricsM where
  width : ℚ
  actualBoundingBoxLeft : ℚ
  actualBoundingBoxRight : ℚ
  actualBoundingBoxAscent : ℚ
  actualBoundingBoxDescent : ℚ
deriving DecidableEq, Repr

/-- The measurement oracle: what `measureText` reports for a character at a
style and pixel ratio (after `setCanvasFont`). -/
def MeasureFn : Type :=
  FontStyle → String → ℚ → TextMetricsM

/-- The cell quantities `getGlyph` derives from a measurement
(`glyphAtlas.ts` lines 118-127). -/
structure CellMetrics where
  left : ℚ
  right : ℚ
  ascent : ℚ
  descent : ℚ
  pad : ℤ
  w : ℕ
  h : ℕ
  baselineX : ℚ
  baselineY : ℚ
deriving DecidableEq, Repr

/-- The extent/cell-size computation of `getGlyph`:
`left = m.actualBoundingBoxLeft || 0`,
`right = m.actualBoundingBoxRight || Math.max(1, m.width)`,
`ascent = m.actualBoundingBoxAscent || parsePx(style.fontSize, 16) * dpr * 0.8`,
`descent = m.actualBoundingBoxDescent || parsePx(style.fontSize, 16) * dpr * 0.2`,
`pad = Math.max(1, Math.ceil(dpr))`,
`w = Math.max(1, Math.ceil(left + right + pad * 2))`,
`h = Math.max(1, Math.ceil(ascent + descent + pad * 2))`,
`baselineX = pad + left`, `baselineY = pad + ascent`. -/
def computeCell (style : FontStyle) (dpr : ℚ) (m : TextMetricsM) : CellMetrics :=
  let left := jsOr m.actualBoundingBoxLeft 0
  let right := jsOr m.actualBoundingBoxRight (max 1 m.width)
  let ascent := jsOr m.actualBoundingBoxAscent (parsePx (some style.fontSize) 16 * dpr * 0.8)
  let descent := jsOr m.actualBoundingBoxDescent (parsePx (some style.fontSize) 16 * dpr * 0.2)
  let pad : ℤ := max 1 ⌈dpr⌉
  { left := left
    right := right
    ascent := ascent
    descent := descent
    pad := pad
    w := (max 1 ⌈left + right + (pad : ℚ) * 2⌉).toNat
    h := (max 1 ⌈ascent + descent + (pad : ℚ) * 2⌉).toNat
    baselineX := (pad : ℚ) + left
    baselineY := (pad : ℚ) + ascent }

/-- The cache key of `getGlyph`:
`` `${style.fontStyle}|${style.fontVariant}|${style.fontWeight}|${style.fontSize}|${style.fontFamily}|${ch}|${dpr}` ``. -/
def glyphKey (style : FontStyle) (ch : String) (dpr : ℚ) : String :=
  style.fontStyle ++ "|" ++ style.fontVariant ++ "|" ++ style.fontWeight ++ "|" ++
    style.fontSize ++ "|" ++ style.fontFamily ++ "|" ++ ch ++ "|" ++ toString dpr

/-- Lookup in the `Map<string, CachedGlyph>` model. -/
def mapGet : List (String × CachedGlyph) → String → Option CachedGlyph
  | [], _ => none
  | (k, v) :: rest, key => if k = key then some v else mapGet rest key

/-- The whitespace test of `getGlyph`:
`ch === " " || ch === "\t" || ch === "\n" || ch === "\r"`. -/
def isWs (ch : String) : Bool :=
  ch = " " || ch = "\t" || ch = "\n" || ch = "\r"

/-- The mutable state of a `GlyphAtlas` instance: the packing cursor, the
glyph cache map (most recent insertion first; the source only inserts keys
that are absent, so lookup agrees with `Map`), and the reserved
`whitePixel` UV rectangle. -/
structure AtlasState where
  cursor : Cursor
  map : List (String × CachedGlyph)
  whitePixel : UVRect
deriving DecidableEq, Repr

/-- Model of `GlyphAtlas.reset()`: clear the cache, reinitialize the cursor to
`x = 2, y = 2, rowH = 0`, clear and re-upload the texture, write the
single opaque pixel at (0,0) and point `whitePixel` at its centre
(`0.5 / 4096`, a zero-area UV rectangle). -/
def atlasReset (_s : AtlasState) : AtlasState :=
  { cursor := { x := 2, y := 2, rowH := 0 }
    map := []
    whitePixel :=
      { u0 := (0.5 : ℚ) / (atlasW : ℚ)
        v0 := (0.5 : ℚ) / (atlasH : ℚ)
        u1 := (0.5 : ℚ) / (atlasW : ℚ)
        v1 := (0.5 : ℚ) / (atlasH : ℚ) } }

/-- The state of a freshly constructed atlas (the constructor ends with
`this.reset()`). -/
def atlasInit : AtlasState :=
  atlasReset { cursor := { x := 0, y := 0, rowH := 0 }, map := [],
               whitePixel := { u0 := 0, v0 := 0, u1 := 0, v1 := 0 } }

/-- Model of `GlyphAtlas.getGlyph(style, ch, dpr)`.  Returns the cached glyph and
the successor atlas state, or the `"Glyph atlas full"` error. -/
def getGlyph (meas : MeasureFn) (s : AtlasState) (style : FontStyle) (ch : String) (dpr : ℚ) :
    Except String (CachedGlyph × AtlasState) :=
  match mapGet s.map (glyphKey style ch dpr) with
  | some cached => .ok (cached, s)
  | none =>
    if isWs ch then
      .ok (.empty, { s with map := (glyphKey style ch dpr, .empty) :: s.map })
    else
      let cm := computeCell style dpr (meas style ch dpr)
      match allocGlyphSlot s.cursor cm.w cm.h with
      | (none, _) => .error "Glyph atlas full"
      | (some pos, c') =>
        let g : CachedGlyph :=
          .glyph ((pos.1 : ℚ) / (atlasW : ℚ)) ((pos.2 : ℚ) / (atlasH : ℚ))
            (((pos.1 + cm.w : ℕ) : ℚ) / (atlasW : ℚ)) (((pos.2 + cm.h : ℕ) : ℚ) / (atlasH : ℚ))
            cm.w cm.h cm.baselineX cm.baselineY
        .ok (g, { s with cursor := c', map := (glyphKey style ch dpr, g) :: s.map })

/-! ## Geometry builder (webglTextRenderer.ts, buildVertices) -/

/-- The `pushQuad` closure of `buildVertices`: twelve floats per vertex
(clip position, UV, RGBA color, UV bounds), two triangles, six vertices,
in the push order of the source. -/
def pushQuad (width height x y w h u0 v0 u1 v1 : ℚ) (color : Rgba) (uvBounds : UVRect) :
    List ℚ :=
  let p0 := toClip x y width height
  let p1 := toClip (x + w) (y + h) width height
  [p0.1, p1.2, u0, v1, color.r, color.g, color.b, color.a,
     uvBounds.u0, uvBounds.v0, uvBounds.u1, uvBounds.v1,
   p1.1, p1.2, u1, v1, color.r, color.g, color.b, color.a,
     uvBounds.u0, uvBounds.v0, uvBounds.u1, uvBounds.v1,
   p1.1, p0.2, u1, v0, color.r, color.g, color.b, color.a,
     uvBounds.u0, uvBounds.v0, uvBounds.u1, uvBounds.v1,
   p0.1, p1.2, u0, v1, color.r, color.g, color.b, color.a,
     uvBounds.u0, uvBounds.v0, uvBounds.u1, uvBounds.v1,
   p1.1, p0.2, u1, v0, color.r, color.g, color.b, color.a,
     uvBounds.u0, uvBounds.v0, uvBounds.u1, uvBounds.v1,
   p0.1, p0.2, u0, v0, color.r, color.g, color.b, color.a,
     uvBounds.u0, uvBounds.v0, uvBounds.u1, uvBounds.v1]

/-- The debug wireframe test of `buildVertices`:
`showWire && p.boxW > 0.35`. -/
def wireCond (showWire : Bool) (p : Placement) : Bool :=
  showWire && decide ((0.35 : ℚ) < p.boxW)

/-- The fixed debug tint `[0.08, 0.61, 0.27, 0.65]`. -/
def wireColor : Rgba :=
  { r := 0.08, g := 0.61, b := 0.27, a := 0.65 }

/-- The four thin border quads pushed for one placement in debug mode,
sampling the atlas `whitePixel` (zero-area UV). -/
def wireFloats (wp : UVRect) (width height dpr : ℚ) (p : Placement) : List ℚ :=
  let wx := p.boxX * dpr
  let wy := p.boxY * dpr
  let ww := p.boxW * dpr
  let wh := p.boxH * dpr
  let t : ℚ := max 1 ((round dpr : ℤ) : ℚ)
  pushQuad width height wx wy ww t wp.u0 wp.v0 wp.u1 wp.v1 wireColor wp ++
    pushQuad width height wx (wy + wh - t) ww t wp.u0 wp.v0 wp.u1 wp.v1 wireColor wp ++
    pushQuad width height wx wy t wh wp.u0 wp.v0 wp.u1 wp.v1 wireColor wp ++
    pushQuad width height (wx + ww - t) wy t wh wp.u0 wp.v0 wp.u1 wp.v1 wireColor wp

/-- The floats one placement contributes to the vertex buffer: one glyph
quad when its glyph is non-empty, plus four border quads in debug mode
when the box is wide enough. -/
def placementFloats (wp : UVRect) (width height dpr : ℚ) (showWire : Bool)
    (p : Placement) (g : CachedGlyph) : List ℚ :=
  (match g with
   | .empty => []
   | .glyph u0 v0 u1 v1 w h bX bY =>
     pushQuad width height (p.x * dpr - bX) (p.y * dpr - bY) (w : ℚ) (h : ℚ)
       u0 v0 u1 v1 p.color { u0 := u0, v0 := v0, u1 := u1, v1 := v1 }) ++
  (if wireCond showWire p then wireFloats wp width height dpr p else [])

/-- Model of `WebGLTextRenderer.buildVertices`: fold the placements through the
atlas, concatenating the floats of each placement in order.  An atlas-full
throw inside `getGlyph` propagates. -/
def buildVertices (meas : MeasureFn) :
    AtlasState → List Placement → ℚ → ℚ → ℚ → Bool → Except String (List ℚ × AtlasState)
  | s, [], _, _, _, _ => .ok ([], s)
  | s, p :: rest, width, height, dpr, showWire =>
    match getGlyph meas s p.style p.ch dpr with
    | .error e => .error e
    | .ok (g, s₁) =>
      match buildVertices meas s₁ rest width height dpr showWire with
      | .error e => .error e
      | .ok (out, s₂) =>
        .ok (placementFloats s₁.whitePixel width height dpr showWire p g ++ out, s₂)

/-- The number of glyph quads `buildVertices` produces: one per placement
whose (cached or fresh) glyph is non-empty.  Same traversal as
`buildVertices`. -/
def glyphQuadCount (meas : MeasureFn) :
    AtlasState → List Placement → ℚ → Except String (ℕ × AtlasState)
  | s, [], _ => .ok (0, s)
  | s, p :: rest, dpr =>
    match getGlyph meas s p.style p.ch dpr with
    | .error e => .error e
    | .ok (g, s₁) =>
      match glyphQuadCount meas s₁ rest dpr with
      | .error e => .error e
      | .ok (n, s₂) => .ok ((match g with | .empty => 0 | _ => 1) + n, s₂)

/-! ## Shader sources (shaderSource.ts)

String literals write the GLSL braces as the escapes `\x7b` / `\x7d`. -/

/-- Model of `vertexSrc` from `shaderSource.ts`. -/
def vertexSrc : String :=
  "#version 300 es\nlayout(location = 0) in vec2 a_pos;\nlayout(location = 1) in vec2 a_uv;\nlayout(location = 2) in vec4 a_color;\nlayout(location = 3) in vec4 a_uv_bounds;\nout vec2 v_uv;\nout vec4 v_color;\nout vec4 v_uv_bounds;\nvoid main() \x7b\n  gl_Position = vec4(a_pos, 0.0, 1.0);\n  v_uv = a_uv;\n  v_color = a_color;\n  v_uv_bounds = a_uv_bounds;\n\x7d"

/-- Model of `ShaderEffect` from `types.ts`: the two user-supplied snippets. -/
structure ShaderEffect where
  warpBody : String
  shadeBody : String
deriving DecidableEq, Repr

/-- The fragment template up to the start of the `warpBody` splice point
(declarations, the `hash21`/`noise2` helpers, and the `warpTextLocalUV`
signature). -/
def fragmentPre : String :=
  "#version 300 es\nprecision mediump float;\nin vec2 v_uv;\nin vec4 v_color;\nin vec4 v_uv_bounds;\nuniform sampler2D u_tex;\nuniform vec2 u_resolution;\nuniform float u_time;\nuniform float u_intensity;\nuniform float u_speed;\nout vec4 outColor;\n\nfloat hash21(vec2 p) \x7b\n  p = fract(p * vec2(123.34, 456.21));\n  p += dot(p, p + 45.32);\n  return fract(p.x * p.y);\n\x7d\n\nfloat noise2(vec2 p) \x7b\n  vec2 i = floor(p);\n  vec2 f = fract(p);\n  float a = hash21(i);\n  float b = hash21(i + vec2(1.0, 0.0));\n  float c = hash21(i + vec2(0.0, 1.0));\n  float d = hash21(i + vec2(1.0, 1.0));\n  vec2 u = f * f * (3.0 - 2.0 * f);\n  return mix(a, b, u.x) + (c - a) * u.y * (1.0 - u.x) + (d - b) * u.x * u.y;\n\x7d\n\nvec2 warpTextLocalUV(\n  vec2 localUV,\n  vec2 uv,\n  vec4 uvBounds,\n  vec2 fragCoord,\n  vec2 resolution,\n  float time,\n  float intensity,\n  float speed\n) \x7b\n"

/-- The fragment template between the `warpBody` and `shadeBody` splice
points (the `shadeText` signature). -/
def fragmentMid : String :=
  "\n\x7d\n\nvec3 shadeText(\n  vec2 localUV,\n  vec2 uv,\n  vec3 baseColor,\n  float alpha,\n  vec2 fragCoord,\n  vec2 resolution,\n  float time,\n  float intensity,\n  float speed\n) \x7b\n"

/-- The fragment template after the `shadeBody` splice point (the `main`
function: local-UV computation, warping, clamping, texture sample, alpha
discard, shading and premultiplied output). -/
def fragmentPost : String :=
  "\n\x7d\n\nvoid main() \x7b\n  vec2 uvSpan = max(v_uv_bounds.zw - v_uv_bounds.xy, vec2(1e-6));\n  vec2 localUV = (v_uv - v_uv_bounds.xy) / uvSpan;\n  vec2 warpedLocalUV = warpTextLocalUV(localUV, v_uv, v_uv_bounds, gl_FragCoord.xy, u_resolution, u_time, u_intensity, u_speed);\n  warpedLocalUV = clamp(warpedLocalUV, vec2(0.0), vec2(1.0));\n  vec2 warpedUV = v_uv_bounds.xy + warpedLocalUV * uvSpan;\n\n  vec4 texel = texture(u_tex, warpedUV);\n  float alpha = texel.a * v_color.a;\n  if (alpha <= 0.00001) \x7b\n    discard;\n  \x7d\n\n  vec3 base = v_color.rgb;\n  vec3 shaded = shadeText(warpedLocalUV, warpedUV, base, alpha, gl_FragCoord.xy, u_resolution, u_time, u_intensity, u_speed);\n  shaded = max(shaded, vec3(0.0));\n\n  outColor = vec4(shaded * alpha, alpha);\n\x7d"

/-- Model of `buildFragmentSource(effect)`: splice `warpBody`/`shadeBody` (with the
identity defaults for empty snippets) into the fixed template. -/
def buildFragmentSource (effect : ShaderEffect) : String :=
  fragmentPre ++ jsOrString effect.warpBody "return localUV;" ++
    fragmentMid ++ jsOrString effect.shadeBody "return baseColor;" ++ fragmentPost

/-- Model of `defaultShaderKeys` from `shaderSource.ts`. -/
def defaultShaderKeys : List String :=
  ["plain", "iridescent", "scanline", "pulse", "noiseWarp", "rippleWarp"]

/-! ## Shader program registry (webglTextRenderer.ts / example.ts)

GPU driver behaviour (object creation, compile status, info logs, link
status, uniform locations) is a parameter `GLEnv`; fetches are a parameter
function producing settled responses. -/

/-- Shader stage (`gl.VERTEX_SHADER` / `gl.FRAGMENT_SHADER`). -/
inductive ShaderStage where
  | vertex : ShaderStage
  | fragment : ShaderStage
deriving DecidableEq, Repr

/-- The driver oracle: creation success, compile/link verdicts, diagnostic
logs (the empty string models a `null`/empty info log) and uniform
locations for a linked program identified by its source pair. -/
structure GLEnv where
  createShaderOk : Bool
  compileOk : ShaderStage → String → Bool
  shaderInfoLog : ShaderStage → String → String
  createProgramOk : Bool
  linkOk : String → String → Bool
  programInfoLog : String → String → String
  uniformLoc : String → String → String → Option ℕ

/-- A linked program, identified by its source pair. -/
structure GLProgram where
  vs : String
  fs : String
deriving DecidableEq, Repr

/-- Model of `WebGLTextRenderer.createShader`: create, compile, and on failure
throw the driver info log (or `"Shader compile failed"` when the log is
empty). -/
def createShader (env : GLEnv) (stage : ShaderStage) (source : String) :
    Except String String :=
  if !env.createShaderOk then .error "Failed to create shader"
  else if env.compileOk stage source then .ok source
  else .error (jsOrString (env.shaderInfoLog stage source) "Shader compile failed")

/-- Model of `WebGLTextRenderer.createProgram`: compile both stages, create the
program object, link, and on link failure throw the program info log (or
`"Program link failed"`). -/
def createProgram (env : GLEnv) (vsSource fsSource : String) : Except String GLProgram :=
  match createShader env .vertex vsSource with
  | .error e => .error e
  | .ok _ =>
    match createShader env .fragment fsSource with
    | .error e => .error e
    | .ok _ =>
      if !env.createProgramOk then .error "Failed to create shader program"
      else if env.linkOk vsSource fsSource then .ok { vs := vsSource, fs := fsSource }
      else .error (jsOrString (env.programInfoLog vsSource fsSource) "Program link failed")

/-- Model of `ProgramInfo` from `types.ts`: the program plus its resolved uniform
locations. -/
structure ProgramInfo where
  program : GLProgram
  tex : Option ℕ
  resolution : Option ℕ
  time : Option ℕ
  intensity : Option ℕ
  speed : Option ℕ
deriving DecidableEq, Repr

/-- Model of `createProgramInfoForProgram`: resolve the five uniform locations. -/
def createProgramInfoForProgram (env : GLEnv) (p : GLProgram) : ProgramInfo :=
  { program := p
    tex := env.uniformLoc p.vs p.fs "u_tex"
    resolution := env.uniformLoc p.vs p.fs "u_resolution"
    time := env.uniformLoc p.vs p.fs "u_time"
    intensity := env.uniformLoc p.vs p.fs "u_intensity"
    speed := env.uniformLoc p.vs p.fs "u_speed" }

/-- Model of `createProgramInfo` (template fragment over the shared `vertexSrc`). -/
def createProgramInfo (env : GLEnv) (fragmentSource : String) : Except String ProgramInfo :=
  match createProgram env vertexSrc fragmentSource with
  | .error e => .error e
  | .ok p => .ok (createProgramInfoForProgram env p)

/-- Model of `createProgramInfoFromRaw` (caller-supplied vertex and fragment). -/
def createProgramInfoFromRaw (env : GLEnv) (vertexSource fragmentSource : String) :
    Except String ProgramInfo :=
  match createProgram env vertexSource fragmentSource with
  | .error e => .error e
  | .ok p => .ok (createProgramInfoForProgram env p)

/-- A program registry (`Map<string, ProgramInfo>`), insertion-ordered. -/
def Registry : Type :=
  List (String × ProgramInfo)

/-- Model of `Map.get` on a registry. -/
def regGet : Registry → String → Option ProgramInfo
  | [], _ => none
  | (k, v) :: rest, key => if k = key then some v else regGet rest key

/-- Model of `Map.set` on a registry: replace in place, else append. -/
def regSet : Registry → String → ProgramInfo → Registry
  | [], key, info => [(key, info)]
  | (k, v) :: rest, key, info =>
    if k = key then (key, info) :: rest else (k, v) :: regSet rest key info

/-- Model of `setProgramInfo(key, info)`: store the new program (the source then
deletes the GPU object of the replaced program, which has no registry
effect). -/
def setProgramInfo (reg : Registry) (key : String) (info : ProgramInfo) : Registry :=
  regSet reg key info

/-- Model of `registerShaderProgram(key, effect)` as a transition on the registry:
the first component is the registry the renderer holds afterwards, the
second the outcome of the call.  The registry is only written by the final
`setProgramInfo`, after compilation and linking succeeded. -/
def registerShaderProgramRun (env : GLEnv) (reg : Registry) (key : String)
    (effect : ShaderEffect) : Registry × Except String Unit :=
  match createProgramInfo env (buildFragmentSource effect) with
  | .error e => (reg, .error e)
  | .ok info => (setProgramInfo reg key info, .ok ())

/-- Model of `RawShaderProgramSource` from `types.ts`. -/
structure RawShaderProgramSource where
  vertexSource : String
  fragmentSource : String
deriving DecidableEq, Repr

/-- Model of `registerRawShaderProgramFromSource(key, source)` as a registry
transition. -/
def registerRawFromSourceRun (env : GLEnv) (reg : Registry) (key : String)
    (source : RawShaderProgramSource) : Registry × Except String Unit :=
  match createProgramInfoFromRaw env source.vertexSource source.fragmentSource with
  | .error e => (reg, .error e)
  | .ok info => (setProgramInfo reg key info, .ok ())

/-- Model of `RawShaderProgramFiles` from `types.ts` (the optional `fetchInit` is
forwarded to `fetch` unchanged and is absorbed into the fetch oracle). -/
structure RawShaderProgramFiles where
  vertexUrl : String
  fragmentUrl : String
deriving DecidableEq, Repr

/-- A settled fetch response (`ok`, `status`, `statusText`, body text). -/
structure FetchResponse where
  ok : Bool
  status : ℕ
  statusText : String
  text : String
deriving DecidableEq, Repr

/-- Model of `fetchShaderText(url)`: reject with the status-derived message
`` `Failed to fetch shader ${url}: ${res.status} ${res.statusText}` `` on a
non-success response. -/
def fetchShaderText (fetchFn : String → FetchResponse) (url : String) : Except String String :=
  let res := fetchFn url
  if !res.ok then
    .error ("Failed to fetch shader " ++ url ++ ": " ++ toString res.status ++ " " ++ res.statusText)
  else .ok res.text

/-- Model of `registerRawShaderProgramFromFiles(key, files)` as a registry
transition: fetch both sources (failing as a unit when either fetch
fails; `Promise.all` settles on the rejection of the vertex fetch first in
this sequential model), then delegate to the raw registration. -/
def registerRawFromFilesRun (env : GLEnv) (fetchFn : String → FetchResponse)
    (reg : Registry) (key : String) (files : RawShaderProgramFiles) :
    Registry × Except String Unit :=
  match fetchShaderText fetchFn files.vertexUrl with
  | .error e => (reg, .error e)
  | .ok v =>
    match fetchShaderText fetchFn files.fragmentUrl with
    | .error e => (reg, .error e)
    | .ok f =>
      registerRawFromSourceRun env reg key { vertexSource := v, fragmentSource := f }

/-- Model of `WebGLTextRenderer.getProgramInfo(key)` (the library renderer): a
missing key falls back to the `"plain"` program; a missing fallback is a
thrown error. -/
def getProgramInfo (shaderPrograms : Registry) (key : String) : Except String ProgramInfo :=
  match regGet shaderPrograms key with
  | some hit => .ok hit
  | none =>
    match regGet shaderPrograms "plain" with
    | some plain => .ok plain
    | none => .error "Missing plain shader program"

/-- Model of `defaultShaderKey` from `example.ts` (`"__default"`). -/
def defaultShaderKey : String :=
  "__default"

/-- Model of `getProgramInfo(key)` of the embedded full renderer in `example.ts`:
the scene fallback key is `defaultShaderKey = "__default"`. -/
def getProgramInfoExample (shaderPrograms : Registry) (key : String) :
    Except String ProgramInfo :=
  match regGet shaderPrograms key with
  | some hit => .ok hit
  | none =>
    match regGet shaderPrograms defaultShaderKey with
    | some d => .ok d
    | none => .error "Missing default shader program"

/-- Model of `getPostPassProgramInfo(key)` from `example.ts`: the post-pass
fallback key is `"identity"`. -/
def getPostPassProgramInfo (postPassPrograms : Registry) (key : String) :
    Except String ProgramInfo :=
  match regGet postPassPrograms key with
  | some hit => .ok hit
  | none =>
    match regGet postPassPrograms "identity" with
    | some idn => .ok idn
    | none => .error "Missing identity post pass program"

/-! ## Auxiliary definitions for the verification -/

/-- Invariant relating a packed cell to the current cursor: the cell lies
on the current shelf (same `y`, fully left of the cursor with its border,
no taller than `rowH`) or on a finished shelf strictly above the cursor
row (with its border). -/
def Placed (c : Cursor) (r : Rect) : Prop :=
  (r.y = c.y ∧ r.x + r.w + 1 ≤ c.x ∧ r.h ≤ c.rowH) ∨ r.y + r.h + 1 ≤ c.y

/-- Glyph accessor: `u0` (`0` for the empty glyph). -/
def glyphU0 : CachedGlyph → ℚ
  | .empty => 0
  | .glyph u0 _ _ _ _ _ _ _ => u0

/-- Glyph accessor: `v0` (`0` for the empty glyph). -/
def glyphV0 : CachedGlyph → ℚ
  | .empty => 0
  | .glyph _ v0 _ _ _ _ _ _ => v0

/-- Glyph accessor: `u1` (`0` for the empty glyph). -/
def glyphU1 : CachedGlyph → ℚ
  | .empty => 0
  | .glyph _ _ u1 _ _ _ _ _ => u1

/-- Glyph accessor: `v1` (`0` for the empty glyph). -/
def glyphV1 : CachedGlyph → ℚ
  | .empty => 0
  | .glyph _ _ _ v1 _ _ _ _ => v1

/-- Glyph accessor: pixel width (`0` for the empty glyph). -/
def glyphWpx : CachedGlyph → ℕ
  | .empty => 0
  | .glyph _ _ _ _ w _ _ _ => w

/-- Glyph accessor: pixel height (`0` for the empty glyph). -/
def glyphHpx : CachedGlyph → ℕ
  | .empty => 0
  | .glyph _ _ _ _ _ h _ _ => h

/-- Glyph accessor: `baselineX` (`0` for the empty glyph). -/
def glyphBaselineX : CachedGlyph → ℚ
  | .empty => 0
  | .glyph _ _ _ _ _ _ bX _ => bX

/-- Glyph accessor: `baselineY` (`0` for the empty glyph). -/
def glyphBaselineY : CachedGlyph → ℚ
  | .empty => 0
  | .glyph _ _ _ _ _ _ _ bY => bY

/-- The `u0` of a successful `getGlyph` result. -/
def resultU0 (r : Except String (CachedGlyph × AtlasState)) : Option ℚ :=
  match r with
  | .ok (g, _) => some (glyphU0 g)
  | .error _ => none

/-- The `u1` of a successful `getGlyph` result. -/
def resultU1 (r : Except String (CachedGlyph × AtlasState)) : Option ℚ :=
  match r with
  | .ok (g, _) => some (glyphU1 g)
  | .error _ => none

/-- Decidable equality for `Except` results (used to evaluate concrete
runs). -/
instance {ε α : Type} [DecidableEq ε] [DecidableEq α] : DecidableEq (Except ε α) := fun x y =>
  match x, y with
  | .ok a, .ok b =>
    if h : a = b then isTrue (by rw [h]) else isFalse (by intro hc; injection hc; exact h ‹a = b›)
  | .error a, .error b =>
    if h : a = b then isTrue (by rw [h]) else isFalse (by intro hc; injection hc; exact h ‹a = b›)
  | .ok _, .error _ => isFalse (by intro hc; exact Except.noConfusion hc)
  | .error _, .ok _ => isFalse (by intro hc; exact Except.noConfusion hc)

/-! ## Concrete instances used by witnesses and counterexamples -/

/-- A resolved style as computed by the browser for unstyled text. -/
def plainStyle : FontStyle :=
  { fontStyle := "normal", fontVariant := "normal", fontWeight := "400",
    fontSize := "16px", fontFamily := "serif" }

/-- Concrete C1 witness requests. -/
def c1Reqs : List (ℕ × ℕ) :=
  [(10, 12), (20, 8), (4090, 30)]

/-- The cells the shelf allocator packs for `c1Reqs`. -/
def c1Rects : List Rect :=
  [{ x := 2, y := 2, w := 10, h := 12 },
   { x := 13, y := 2, w := 20, h := 8 },
   { x := 2, y := 15, w := 4090, h := 30 }]

/-- The cursor after packing `c1Reqs`. -/
def c1Cf : Cursor :=
  { x := 4093, y := 15, rowH := 30 }

/-- Concrete C2 witness measurement: a small 7×10 cell. -/
def c2Meas : MeasureFn :=
  fun _ _ _ =>
    { width := 4, actualBoundingBoxLeft := 1, actualBoundingBoxRight := 4,
      actualBoundingBoxAscent := 6, actualBoundingBoxDescent := 2 }

/-- Concrete C2 witness atlas state deep in the atlas. -/
def c2State : AtlasState :=
  { cursor := { x := 2, y := 4000, rowH := 0 }, map := [], whitePixel := atlasInit.whitePixel }

/-- Concrete C3 witness driver: every compile fails with the log
`"bad"`. -/
def c3Env : GLEnv :=
  { createShaderOk := true
    compileOk := fun _ _ => false
    shaderInfoLog := fun _ _ => "bad"
    createProgramOk := true
    linkOk := fun _ _ => true
    programInfoLog := fun _ _ => ""
    uniformLoc := fun _ _ _ => none }

/-- Concrete C3 witness fetch: every fetch fails with 404. -/
def c3Fetch : String → FetchResponse :=
  fun _ => { ok := false, status := 404, statusText := "Not Found", text := "" }

/-- A previously registered program for the C3 witness registry. -/
def c3Program : ProgramInfo :=
  { program := { vs := "old-vertex", fs := "old-fragment" },
    tex := some 0, resolution := some 1, time := some 2, intensity := some 3, speed := some 4 }

/-- The C3 witness registry with one registered key. -/
def c3Reg : Registry :=
  [("k", c3Program)]

/-- The C3 witness raw sources whose compilation fails under `c3Env`. -/
def c3Src : RawShaderProgramSource :=
  { vertexSource := "broken-vertex", fragmentSource := "broken-fragment" }

/-- The C3 witness file descriptor whose fetches fail under `c3Fetch`. -/
def c3Files : RawShaderProgramFiles :=
  { vertexUrl := "shaders/custom.vertex.glsl", fragmentUrl := "shaders/custom.fragment.glsl" }

/-- Concrete C4 measurement: a 7×10 cell with baseline (2,7). -/
def c4Meas : MeasureFn :=
  fun _ _ _ =>
    { width := 4, actualBoundingBoxLeft := 1, actualBoundingBoxRight := 4,
      actualBoundingBoxAscent := 6, actualBoundingBoxDescent := 2 }

/-- The glyph `getGlyph` builds for `c4Meas`/`plainStyle`/`"B"`/`dpr = 1`
on a fresh atlas. -/
def c4Glyph : CachedGlyph :=
  .glyph (1/2048) (1/2048) (9/4096) (3/1024) 7 10 2 7

/-- The atlas state after that first `getGlyph` call. -/
def c4State : AtlasState :=
  { cursor := { x := 10, y := 2, rowH := 10 }
    map := [("normal|normal|400|16px|serif|B|1", c4Glyph)]
    whitePixel := atlasInit.whitePixel }

/-- First C4 placement. -/
def c4P : Placement :=
  { ch := "B", style := plainStyle, x := 2, y := 15, boxX := 0, boxY := 0,
    boxW := 10, boxH := 20, color := { r := 1, g := 1, b := 1, a := 1 } }

/-- Second C4 placement: same style and character, different position. -/
def c4Q : Placement :=
  { ch := "B", style := plainStyle, x := 30, y := 15, boxX := 28, boxY := 0,
    boxW := 10, boxH := 20, color := { r := 1, g := 0, b := 0, a := 1 } }

/-- Concrete C5 measurement. -/
def c5Meas : MeasureFn :=
  fun _ _ _ =>
    { width := 4, actualBoundingBoxLeft := 1, actualBoundingBoxRight := 4,
      actualBoundingBoxAscent := 6, actualBoundingBoxDescent := 2 }

/-- The C5 scenario placement from the spec: character `A`, box
`0 × 0 × 10 × 20`. -/
def c5Placement : Placement :=
  { ch := "A", style := plainStyle, x := 2, y := 15, boxX := 0, boxY := 0,
    boxW := 10, boxH := 20, color := { r := 1, g := 1, b := 1, a := 1 } }

/-- The vertex count `rebuildGeometry` derives for the C5 scenario
(`vertices.length / 12`) on a 100×100 canvas at `dpr = 1`. -/
def c5VertexCount (showWire : Bool) : ℕ :=
  match buildVertices c5Meas atlasInit [c5Placement] 100 100 1 showWire with
  | .ok (out, _) => out.length / 12
  | .error _ => 0

/-- The C5 witness geometry run (no debug wireframe). -/
def c5Run : Except String (List ℚ × AtlasState) :=
  buildVertices c5Meas atlasInit [c5Placement] 100 100 1 false

/-- The float list of `c5Run`. -/
def c5Out : List ℚ :=
  match c5Run with
  | .ok (o, _) => o
  | .error _ => []

/-- The final atlas state of `c5Run`. -/
def c5End : AtlasState :=
  match c5Run with
  | .ok (_, s) => s
  | .error _ => atlasInit

/-- The quad-count run matching `c5Run`. -/
def c5CountRun : Except String (ℕ × AtlasState) :=
  glyphQuadCount c5Meas atlasInit [c5Placement] 1

/-- The glyph-quad count of `c5CountRun`. -/
def c5Gq : ℕ :=
  match c5CountRun with
  | .ok (n, _) => n
  | .error _ => 0

/-- The final atlas state of `c5CountRun`. -/
def c5End2 : AtlasState :=
  match c5CountRun with
  | .ok (_, s) => s
  | .error _ => atlasInit

/-- A registered program for the C6 registry instances. -/
def c6Program : ProgramInfo :=
  { program := { vs := "vs", fs := "fs" },
    tex := none, resolution := none, time := none, intensity := none, speed := none }

/-- A dirty atlas state for the C7 witness. -/
def c7Dirty : AtlasState :=
  { cursor := { x := 100, y := 50, rowH := 7 }
    map := [("stale", CachedGlyph.empty)]
    whitePixel := { u0 := 0, v0 := 0, u1 := 0, v1 := 0 } }

/-- Concrete C7 witness measurement. -/
def c7Meas : MeasureFn :=
  fun _ _ _ =>
    { width := 4, actualBoundingBoxLeft := 1, actualBoundingBoxRight := 4,
      actualBoundingBoxAscent := 6, actualBoundingBoxDescent := 2 }

/-- The glyph the C7 witness run builds. -/
def c7Glyph : CachedGlyph :=
  .glyph (1/2048) (1/2048) (9/4096) (3/1024) 7 10 2 7

/-- The atlas state after the C7 witness run. -/
def c7End : AtlasState :=
  { cursor := { x := 10, y := 2, rowH := 10 }
    map := [("normal|normal|400|16px|serif|D|1", c7Glyph)]
    whitePixel := atlasInit.whitePixel }

/-- Concrete C9 counterexample measurement: the browser reports a negative
`actualBoundingBoxLeft` (ink entirely right of the alignment point). -/
def c9Meas : MeasureFn :=
  fun _ _ _ =>
    { width := 5, actualBoundingBoxLeft := -(1/2), actualBoundingBoxRight := 5,
      actualBoundingBoxAscent := 8, actualBoundingBoxDescent := 2 }

/-- The C9 counterexample `getGlyph` run. -/
def c9Result : Except String (CachedGlyph × AtlasState) :=
  getGlyph c9Meas atlasInit plainStyle "A" 1

/-- The `baselineX` of the C9 counterexample result. -/
def c9BaselineX : ℚ :=
  match c9Result with
  | .ok (g, _) => glyphBaselineX g
  | .error _ => 0

/-- Whether the C9 counterexample result is a non-empty glyph. -/
def c9NonEmpty : Bool :=
  match c9Result with
  | .ok (.glyph _ _ _ _ _ _ _ _, _) => true
  | _ => false

/-- Concrete C9 witness measurement with non-negative left and positive
ascent. -/
def c9wMeas : MeasureFn :=
  fun _ _ _ =>
    { width := 4, actualBoundingBoxLeft := 1, actualBoundingBoxRight := 4,
      actualBoundingBoxAscent := 6, actualBoundingBoxDescent := 2 }

/-- The glyph the C9 witness run builds. -/
def c9wGlyph : CachedGlyph :=
  .glyph (1/2048) (1/2048) (9/4096) (3/1024) 7 10 2 7

/-- The atlas state after the C9 witness run. -/
def c9wState : AtlasState :=
  { cursor := { x := 10, y := 2, rowH := 10 }
    map := [("normal|normal|400|16px|serif|E|1", c9wGlyph)]
    whitePixel := atlasInit.whitePixel }

/-- Concrete C10 measurement: a padded cell 4202 pixels wide. -/
def c10Meas : MeasureFn :=
  fun _ _ _ =>
    { width := 4200, actualBoundingBoxLeft := 0, actualBoundingBoxRight := 4200,
      actualBoundingBoxAscent := 10, actualBoundingBoxDescent := 2 }

/-! ## Theorems -/

/-- C8: for every canvas width `W > 0` and height `H > 0` and pixel point
`(x, y)`, `toClip` yields `((x/W)·2−1, 1−(y/H)·2)`; the top-left corner
`(0,0)` maps to `(−1, 1)` and the bottom-right corner `(W,H)` maps to
`(1, −1)`. -/
theorem toClip_ndc (x y W H : ℚ) (hW : 0 < W) (hH : 0 < H) :
    toClip x y W H = ((x / W) * 2 - 1, 1 - (y / H) * 2) ∧
    toClip 0 0 W H = (-1, 1) ∧
    toClip W H W H = (1, -1) := by
  refine ⟨rfl, ?_, ?_⟩
  · unfold toClip
    norm_num
  · unfold toClip
    rw [div_self hW.ne', div_self hH.ne']
    norm_num

/-- C8 witness: the conversion on a 100×100 canvas at pixel (5, 7). -/
theorem toClip_ndc_witness :
    (0 : ℚ) < 100 ∧
    (toClip 5 7 100 100 = (((5 : ℚ) / 100) * 2 - 1, 1 - ((7 : ℚ) / 100) * 2) ∧
      toClip 0 0 100 100 = (-1, 1) ∧
      toClip 100 100 100 100 = (1, -1)) :=
  ⟨by norm_num, toClip_ndc 5 7 100 100 (by norm_num) (by norm_num)⟩

/-- C6 counterexample: with a program registered under the key
`"default"` and nothing else, looking up a missing key does not fall back
to `"default"`: the library renderer throws `"Missing plain shader
program"` instead of returning the `"default"` program. -/
theorem getProgramInfo_default_cex :
    getProgramInfo [("default", c6Program)] "missing" = .error "Missing plain shader program" ∧
    getProgramInfo [("default", c6Program)] "missing" ≠ .ok c6Program := by
  constructor
  · decide
  · decide

/-- C6 (amended): a key missing from the registry falls back to the key
`"plain"` in the library renderer (`"__default"` in the embedded example
renderer) for scene programs and to `"identity"` for post-pass programs;
a lookup whose fallback key is itself missing throws. -/
theorem getProgramInfo_fallback (reg : Registry) (key : String) (info : ProgramInfo) :
    (regGet reg key = none → regGet reg "plain" = some info →
      getProgramInfo reg key = .ok info) ∧
    (regGet reg key = none → regGet reg "plain" = none →
      getProgramInfo reg key = .error "Missing plain shader program") ∧
    (regGet reg key = none → regGet reg defaultShaderKey = some info →
      getProgramInfoExample reg key = .ok info) ∧
    (regGet reg key = none → regGet reg defaultShaderKey = none →
      getProgramInfoExample reg key = .error "Missing default shader program") ∧
    (regGet reg key = none → regGet reg "identity" = some info →
      getPostPassProgramInfo reg key = .ok info) ∧
    (regGet reg key = none → regGet reg "identity" = none →
      getPostPassProgramInfo reg key = .error "Missing identity post pass program") := by
  unfold getProgramInfo getProgramInfoExample getPostPassProgramInfo
  refine ⟨?_, ?_, ?_, ?_, ?_, ?_⟩ <;> intro h1 h2 <;> rw [h1, h2]

/-- C6 witness: a missing key falls back to the `"plain"` program. -/
theorem getProgramInfo_fallback_witness :
    regGet [("plain", c6Program)] "nope" = none ∧
    regGet [("plain", c6Program)] "plain" = some c6Program ∧
    getProgramInfo [("plain", c6Program)] "nope" = .ok c6Program :=
  ⟨by decide, by decide,
    (getProgramInfo_fallback [("plain", c6Program)] "nope" c6Program).1 (by decide) (by decide)⟩

/-- C3: every failing registration attempt — effect-template, raw-source,
or file-based, failing by shader compile error, link error, or a
non-success fetch — leaves the registry mapping unchanged (the previously
registered program for the key remains stored), and the error carries the
driver-reported (or status-derived) diagnostic text. -/
theorem register_failure_preserves_registry (env : GLEnv) (fetchFn : String → FetchResponse)
    (reg : Registry) (key : String) (effect : ShaderEffect) (source : RawShaderProgramSource)
    (files : RawShaderProgramFiles) (e : String) :
    ((registerShaderProgramRun env reg key effect).2 = .error e →
      (registerShaderProgramRun env reg key effect).1 = reg) ∧
    ((registerRawFromSourceRun env reg key source).2 = .error e →
      (registerRawFromSourceRun env reg key source).1 = reg) ∧
    ((registerRawFromFilesRun env fetchFn reg key files).2 = .error e →
      (registerRawFromFilesRun env fetchFn reg key files).1 = reg) ∧
    ((registerRawFromSourceRun env reg key source).2 = .error e →
      regGet (registerRawFromSourceRun env reg key source).1 key = regGet reg key) ∧
    ((fetchFn files.vertexUrl).ok = false →
      (registerRawFromFilesRun env fetchFn reg key files).2 =
        .error ("Failed to fetch shader " ++ files.vertexUrl ++ ": " ++
          toString (fetchFn files.vertexUrl).status ++ " " ++ (fetchFn files.vertexUrl).statusText)) ∧
    (env.createShaderOk = true → env.compileOk .vertex source.vertexSource = false →
      (registerRawFromSourceRun env reg key source).2 =
        .error (jsOrString (env.shaderInfoLog .vertex source.vertexSource)
          "Shader compile failed")) := by
  refine ⟨?_, ?_, ?_, ?_, ?_, ?_⟩
  · rcases h : createProgramInfo env (buildFragmentSource effect) with e' | info <;>
      simp [registerShaderProgramRun, h]
  · rcases h : createProgramInfoFromRaw env source.vertexSource source.fragmentSource with
      e' | info <;> simp [registerRawFromSourceRun, h]
  · rcases hv : fetchShaderText fetchFn files.vertexUrl with e' | v
    · simp [registerRawFromFilesRun, hv]
    · rcases hf : fetchShaderText fetchFn files.fragmentUrl with e' | f
      · simp [registerRawFromFilesRun, hv, hf]
      · rcases h : createProgramInfoFromRaw env v f with e' | info <;>
          simp [registerRawFromFilesRun, registerRawFromSourceRun, hv, hf, h]
  · rcases h : createProgramInfoFromRaw env source.vertexSource source.fragmentSource with
      e' | info <;> simp [registerRawFromSourceRun, h]
  · intro hf
    simp [registerRawFromFilesRun, fetchShaderText, hf]
  · intro hc hcomp
    simp [registerRawFromSourceRun, createProgramInfoFromRaw, createProgram, createShader,
      hc, hcomp]

/-- C3 witness: with a driver whose compiles fail with log `"bad"` and a
registry already holding a program under `"k"`, a raw re-registration of
`"k"` fails with `"bad"` and leaves the stored program untouched; the
file-based path fails with the 404-derived message and also leaves the
registry unchanged. -/
theorem register_failure_preserves_registry_witness :
    (registerRawFromSourceRun c3Env c3Reg "k" c3Src).2 = .error "bad" ∧
    (registerRawFromSourceRun c3Env c3Reg "k" c3Src).1 = c3Reg ∧
    regGet (registerRawFromSourceRun c3Env c3Reg "k" c3Src).1 "k" = some c3Program ∧
    (registerRawFromFilesRun c3Env c3Fetch c3Reg "k" c3Files).2 =
      .error "Failed to fetch shader shaders/custom.vertex.glsl: 404 Not Found" ∧
    (registerRawFromFilesRun c3Env c3Fetch c3Reg "k" c3Files).1 = c3Reg := by
  refine ⟨by decide, ?_, by decide, by decide, ?_⟩
  · exact (register_failure_preserves_registry c3Env c3Fetch c3Reg "k"
      { warpBody := "", shadeBody := "" } c3Src c3Files "bad").2.1 (by decide)
  · exact (register_failure_preserves_registry c3Env c3Fetch c3Reg "k"
      { warpBody := "", shadeBody := "" } c3Src c3Files
      "Failed to fetch shader shaders/custom.vertex.glsl: 404 Not Found").2.2.1 (by decide)

/-- The wrap step either leaves the cursor unchanged (cell fits on the
shelf with its border) or starts a fresh shelf. -/
theorem wrapCursor_cases (c : Cursor) (w : ℕ) :
    (wrapCursor c w = c ∧ c.x + w < atlasW) ∨
    (wrapCursor c w = { x := 2, y := c.y + c.rowH + 1, rowH := 0 } ∧ atlasW ≤ c.x + w) := by
  unfold wrapCursor
  split_ifs with h
  · exact Or.inr ⟨rfl, h⟩
  · exact Or.inl ⟨rfl, by omega⟩

/-- Wrapping never lowers the cursor row. -/
theorem wrapCursor_y_le (c : Cursor) (w : ℕ) : c.y ≤ (wrapCursor c w).y := by
  rcases wrapCursor_cases c w with ⟨h, _⟩ | ⟨h, _⟩
  · rw [h]
  · rw [h]
    simp only
    omega

/-- Anatomy of a successful allocation. -/
theorem alloc_some_eq {c : Cursor} {w h : ℕ} {pos : ℕ × ℕ} {c' : Cursor}
    (hA : allocGlyphSlot c w h = (some pos, c')) :
    pos.1 = (wrapCursor c w).x ∧ pos.2 = (wrapCursor c w).y ∧
    c'.x = (wrapCursor c w).x + w + 1 ∧ c'.y = (wrapCursor c w).y ∧
    c'.rowH = max (wrapCursor c w).rowH h ∧ (wrapCursor c w).y + h < atlasH := by
  unfold allocGlyphSlot at hA
  split_ifs at hA with hfull
  · simp at hA
  · rw [Prod.mk.injEq] at hA
    obtain ⟨h1, h2⟩ := hA
    obtain h1 := Option.some.inj h1
    subst h2
    subst h1
    exact ⟨rfl, rfl, rfl, rfl, rfl, by omega⟩

/-- A placed cell never lies below the cursor row. -/
theorem placed_y_le {c : Cursor} {r : Rect} (hr : Placed c r) : r.y ≤ c.y := by
  rcases hr with ⟨h1, _, _⟩ | h <;> omega

/-- A successful allocation keeps every previously placed cell placed. -/
theorem placed_mono {c : Cursor} {w h : ℕ} {pos : ℕ × ℕ} {c' : Cursor}
    (hA : allocGlyphSlot c w h = (some pos, c')) {r : Rect} (hr : Placed c r) :
    Placed c' r := by
  obtain ⟨_, _, hx, hy, hrow, _⟩ := alloc_some_eq hA
  rcases wrapCursor_cases c w with ⟨hw, _⟩ | ⟨hw, _⟩ <;>
    rw [hw] at hx hy hrow <;> rcases hr with ⟨h1, h2, h3⟩ | h1
  · exact Or.inl ⟨by omega, by omega, by rw [hrow]; omega⟩
  · exact Or.inr (by omega)
  · refine Or.inr ?_
    simp only at hy
    omega
  · refine Or.inr ?_
    simp only at hy
    omega

/-- The cell of a successful allocation is separated from every cell placed
before it. -/
theorem placed_sep {c : Cursor} {w h : ℕ} {pos : ℕ × ℕ} {c' : Cursor}
    (hA : allocGlyphSlot c w h = (some pos, c')) {r : Rect} (hr : Placed c r) :
    sep r { x := pos.1, y := pos.2, w := w, h := h } := by
  obtain ⟨hpx, hpy, _, _, _, _⟩ := alloc_some_eq hA
  rcases wrapCursor_cases c w with ⟨hw, _⟩ | ⟨hw, _⟩ <;>
    rw [hw] at hpx hpy <;> rcases hr with ⟨h1, h2, h3⟩ | h1
  · exact Or.inl (by simp only; omega)
  · refine Or.inr (Or.inr (Or.inl ?_))
    simp only
    omega
  · refine Or.inr (Or.inr (Or.inl ?_))
    simp only at hpy ⊢
    omega
  · refine Or.inr (Or.inr (Or.inl ?_))
    simp only at hpy ⊢
    omega

/-- The cell of a successful allocation is placed for the successor cursor. -/
theorem placed_new {c : Cursor} {w h : ℕ} {pos : ℕ × ℕ} {c' : Cursor}
    (hA : allocGlyphSlot c w h = (some pos, c')) :
    Placed c' { x := pos.1, y := pos.2, w := w, h := h } := by
  obtain ⟨hpx, hpy, hx, hy, hrow, _⟩ := alloc_some_eq hA
  exact Or.inl ⟨by simp only; omega, by simp only; omega, by simp only; rw [hrow]; omega⟩

/-- A successful allocation never lowers the cursor row, and the packed
cell sits on the row of the successor cursor. -/
theorem alloc_y_mono {c : Cursor} {w h : ℕ} {pos : ℕ × ℕ} {c' : Cursor}
    (hA : allocGlyphSlot c w h = (some pos, c')) :
    c.y ≤ c'.y ∧ pos.2 = c'.y := by
  obtain ⟨_, hpy, _, hy, _, _⟩ := alloc_some_eq hA
  exact ⟨hy ▸ wrapCursor_y_le c w, by omega⟩

/-- Cells allocated after a placed cell are all separated from it, and it
stays placed for the final cursor. -/
theorem allocRun_placed :
    ∀ (reqs : List (ℕ × ℕ)) (c : Cursor) (rs : List Rect) (cf : Cursor),
      allocRun c reqs = some (rs, cf) → ∀ r₀ : Rect, Placed c r₀ →
        (∀ r ∈ rs, sep r₀ r) ∧ Placed cf r₀ := by
  intro reqs
  induction reqs with
  | nil =>
    intro c rs cf hA r₀ h₀
    unfold allocRun at hA
    rw [Option.some.injEq, Prod.mk.injEq] at hA
    obtain ⟨h1, h2⟩ := hA
    subst h1
    subst h2
    exact ⟨by simp, h₀⟩
  | cons q rest ih =>
    intro c rs cf hA r₀ h₀
    obtain ⟨w, h⟩ := q
    unfold allocRun at hA
    rcases hs : allocGlyphSlot c w h with ⟨o, c1⟩
    rw [hs] at hA
    cases o with
    | none => simp at hA
    | some pos =>
      dsimp only at hA
      rcases hr : allocRun c1 rest with _ | ⟨rs', cf'⟩ <;> rw [hr] at hA <;> dsimp only at hA
      · simp at hA
      · rw [Option.some.injEq, Prod.mk.injEq] at hA
        obtain ⟨h1, h2⟩ := hA
        subst h1
        subst h2
        obtain ⟨hsep', hplaced'⟩ := ih c1 rs' cf' hr r₀ (placed_mono hs h₀)
        refine ⟨?_, hplaced'⟩
        intro r hm
        rcases List.mem_cons.mp hm with rfl | hm'
        · exact placed_sep hs h₀
        · exact hsep' r hm'

/-- Cell separation is symmetric. -/
theorem sep_symm {a b : Rect} (h : sep a b) : sep b a := by
  rcases h with h | h | h | h
  · exact Or.inr (Or.inl h)
  · exact Or.inl h
  · exact Or.inr (Or.inr (Or.inr h))
  · exact Or.inr (Or.inr (Or.inl h))

/-- Main run invariant: a successful run packs pairwise separated cells,
all placed for the final cursor, with non-decreasing rows, and never
lowers the cursor row. -/
theorem allocRun_inv :
    ∀ (reqs : List (ℕ × ℕ)) (c : Cursor) (rs : List Rect) (cf : Cursor),
      allocRun c reqs = some (rs, cf) →
        List.Pairwise sep rs ∧ (∀ r ∈ rs, Placed cf r ∧ c.y ≤ r.y) ∧ c.y ≤ cf.y ∧
          List.Chain' (fun a b : Rect => a.y ≤ b.y) rs := by
  intro reqs
  induction reqs with
  | nil =>
    intro c rs cf hA
    unfold allocRun at hA
    rw [Option.some.injEq, Prod.mk.injEq] at hA
    obtain ⟨h1, h2⟩ := hA
    subst h1
    subst h2
    simp
  | cons q rest ih =>
    intro c rs cf hA
    obtain ⟨w, h⟩ := q
    unfold allocRun at hA
    rcases hs : allocGlyphSlot c w h with ⟨o, c1⟩
    rw [hs] at hA
    cases o with
    | none => simp at hA
    | some pos =>
      dsimp only at hA
      rcases hr : allocRun c1 rest with _ | ⟨rs', cf'⟩ <;> rw [hr] at hA <;> dsimp only at hA
      · simp at hA
      · rw [Option.some.injEq, Prod.mk.injEq] at hA
        obtain ⟨h1, h2⟩ := hA
        subst h1
        subst h2
        obtain ⟨hpw, hmem, hcy, hchain⟩ := ih c1 rs' cf' hr
        obtain ⟨hy1, hy2⟩ := alloc_y_mono hs
        obtain ⟨hsep', hplaced'⟩ :=
          allocRun_placed rest c1 rs' cf' hr _ (placed_new hs)
        refine ⟨List.pairwise_cons.mpr ⟨?_, hpw⟩, ?_, by omega, ?_⟩
        · intro r hm
          exact hsep' r hm
        · intro r hm
          rcases List.mem_cons.mp hm with rfl | hm'
          · exact ⟨hplaced', by simp only; omega⟩
          · exact ⟨(hmem r hm').1, by have := (hmem r hm').2; omega⟩
        · refine List.chain'_cons'.mpr ⟨?_, hchain⟩
          intro b hb
          have hbm : b ∈ rs' := by
            cases rs' with
            | nil => simp at hb
            | cons t ts => simp at hb; subst hb; exact List.mem_cons_self t ts
          have := (hmem b hbm).2
          simp only
          omega

/-- Separation with a one-pixel border forces disjoint UV rectangles. -/
theorem sep_uvDisjoint {a b : Rect} (hs : sep a b) : uvDisjoint (uvRect a) (uvRect b) := by
  have hW : (0 : ℚ) < (atlasW : ℚ) := by norm_num [atlasW]
  have hH : (0 : ℚ) < (atlasH : ℚ) := by norm_num [atlasH]
  rcases hs with h | h | h | h
  · exact Or.inl ((div_lt_div_iff_of_pos_right hW).mpr (by exact_mod_cast (by omega : a.x + a.w < b.x)))
  · exact Or.inr (Or.inl
      ((div_lt_div_iff_of_pos_right hW).mpr (by exact_mod_cast (by omega : b.x + b.w < a.x))))
  · exact Or.inr (Or.inr (Or.inl
      ((div_lt_div_iff_of_pos_right hH).mpr (by exact_mod_cast (by omega : a.y + a.h < b.y)))))
  · exact Or.inr (Or.inr (Or.inr
      ((div_lt_div_iff_of_pos_right hH).mpr (by exact_mod_cast (by omega : b.y + b.h < a.y)))))

/-- Clamping with `Math.max(1, ·)` yields at least one. -/
theorem one_le_toNat_max (z : ℤ) : 1 ≤ (max 1 z).toNat := by
  have h := le_max_left 1 z
  omega

/-- The padded cell dimensions computed by `getGlyph` are always at least
one pixel (`Math.max(1, Math.ceil(...))`). -/
theorem computeCell_dims_pos (style : FontStyle) (dpr : ℚ) (m : TextMetricsM) :
    1 ≤ (computeCell style dpr m).w ∧ 1 ≤ (computeCell style dpr m).h :=
  ⟨one_le_toNat_max _, one_le_toNat_max _⟩

/-- C1: for every sequence of glyph requests (each at least one pixel in
both dimensions, as `getGlyph` guarantees — last conjunct) that the shelf
allocator serves in full from a fresh generation, the packed cells are
pairwise separated by at least a one-pixel border, their UV rectangles are
pairwise disjoint, and the packing rows never decrease across
allocations. -/
theorem allocRun_cells_disjoint (reqs : List (ℕ × ℕ)) (rs : List Rect) (cf : Cursor)
    (hdim : ∀ q ∈ reqs, 1 ≤ q.1 ∧ 1 ≤ q.2)
    (hrun : allocRun { x := 2, y := 2, rowH := 0 } reqs = some (rs, cf)) :
    List.Pairwise sep rs ∧
    List.Pairwise uvDisjoint (rs.map uvRect) ∧
    List.Chain' (fun a b : Rect => a.y ≤ b.y) rs ∧
    (∀ r ∈ rs, 2 ≤ r.y) ∧ 2 ≤ cf.y ∧
    (∀ style dpr m, 1 ≤ (computeCell style dpr m).w ∧ 1 ≤ (computeCell style dpr m).h) := by
  obtain ⟨hpw, hmem, hcy, hchain⟩ := allocRun_inv reqs _ rs cf hrun
  refine ⟨hpw, ?_, hchain, fun r hm => (hmem r hm).2, hcy, computeCell_dims_pos⟩
  exact List.Pairwise.map uvRect (fun a b hab => sep_uvDisjoint hab) hpw

/-- C1 witness: three requests (the third forcing a shelf wrap) pack into
pairwise separated cells with non-decreasing rows. -/
theorem allocRun_cells_disjoint_witness :
    (∀ q ∈ c1Reqs, 1 ≤ q.1 ∧ 1 ≤ q.2) ∧
    allocRun { x := 2, y := 2, rowH := 0 } c1Reqs = some (c1Rects, c1Cf) ∧
    (List.Pairwise sep c1Rects ∧
     List.Pairwise uvDisjoint (c1Rects.map uvRect) ∧
     List.Chain' (fun a b : Rect => a.y ≤ b.y) c1Rects ∧
     (∀ r ∈ c1Rects, 2 ≤ r.y) ∧ 2 ≤ c1Cf.y ∧
     (∀ style dpr m, 1 ≤ (computeCell style dpr m).w ∧ 1 ≤ (computeCell style dpr m).h)) :=
  ⟨by decide, by decide, allocRun_cells_disjoint c1Reqs c1Rects c1Cf (by decide) (by decide)⟩

/-- C2: the allocator raises the atlas-full error exactly when — after the
wrap applied when the current cell (with its one-pixel border) would
overflow the 4096-pixel atlas width — the cell (with its one-pixel bottom
border) would exceed the atlas height, i.e. `y' + h ≥ 4096`; `getGlyph`
surfaces exactly that error on a fresh non-whitespace request; with
2000-pixel-tall, 4094-pixel-wide cells the overflow threshold is the third
request: two succeed and the third fails, and the failure is the single outcome
of that call (no retry). -/
theorem atlasFull_iff_height_exceeded :
    (∀ (c : Cursor) (w h : ℕ),
      (allocGlyphSlot c w h).1 = none ↔ atlasH ≤ (wrapCursor c w).y + h) ∧
    (∀ (meas : MeasureFn) (s : AtlasState) (style : FontStyle) (ch : String) (dpr : ℚ),
      isWs ch = false → mapGet s.map (glyphKey style ch dpr) = none →
      (getGlyph meas s style ch dpr = .error "Glyph atlas full" ↔
        (allocGlyphSlot s.cursor (computeCell style dpr (meas style ch dpr)).w
          (computeCell style dpr (meas style ch dpr)).h).1 = none)) ∧
    allocRun { x := 2, y := 2, rowH := 0 } (List.replicate 2 ((4094 : ℕ), (2000 : ℕ))) ≠
      none ∧
    allocRun { x := 2, y := 2, rowH := 0 } (List.replicate 3 ((4094 : ℕ), (2000 : ℕ))) =
      none := by
  refine ⟨?_, ?_, by decide, by decide⟩
  · intro c w h
    unfold allocGlyphSlot
    split_ifs with hfull <;> simp [hfull]
  · intro meas s style ch dpr hws hmiss
    unfold getGlyph
    rw [hmiss, hws]
    simp only [Bool.false_eq_true, if_false]
    rcases hA : allocGlyphSlot s.cursor (computeCell style dpr (meas style ch dpr)).w
        (computeCell style dpr (meas style ch dpr)).h with ⟨o, c1⟩
    cases o with
    | none => simp
    | some pos => simp

/-- C2 witness: a fresh small request deep in the atlas neither errors nor
exhausts the allocator, matching the iff. -/
theorem atlasFull_iff_height_exceeded_witness :
    isWs "C" = false ∧
    mapGet c2State.map (glyphKey plainStyle "C" 1) = none ∧
    (getGlyph c2Meas c2State plainStyle "C" 1 = .error "Glyph atlas full" ↔
      (allocGlyphSlot c2State.cursor (computeCell plainStyle 1 (c2Meas plainStyle "C" 1)).w
        (computeCell plainStyle 1 (c2Meas plainStyle "C" 1)).h).1 = none) :=
  ⟨by decide, by decide,
    atlasFull_iff_height_exceeded.2.1 c2Meas c2State plainStyle "C" 1 (by decide) (by decide)⟩

/-- C7: `reset()` restores the freshly-constructed atlas state for every
prior state — it clears the glyph cache, reinitializes the packing cursor
to the packing origin `x = 2, y = 2, rowH = 0`, and re-establishes the
reserved opaque single-pixel cell with a zero-area UV rectangle
(`u0 = u1`, `v0 = v1`) that is identical across generations (the reset
state does not depend on the prior state); consequently any non-whitespace
glyph request after a reset misses the cache and packs a cell again (the
cursor moves and the cache gains the key). -/
theorem reset_restores_initial (s : AtlasState) :
    atlasReset s = atlasInit ∧
    (atlasReset s).cursor = { x := 2, y := 2, rowH := 0 } ∧
    (atlasReset s).map = [] ∧
    (atlasReset s).whitePixel.u0 = (atlasReset s).whitePixel.u1 ∧
    (atlasReset s).whitePixel.v0 = (atlasReset s).whitePixel.v1 ∧
    (∀ (meas : MeasureFn) (style : FontStyle) (ch : String) (dpr : ℚ) (g : CachedGlyph)
        (s' : AtlasState), isWs ch = false →
      getGlyph meas (atlasReset s) style ch dpr = .ok (g, s') →
      s'.cursor ≠ (atlasReset s).cursor ∧ s'.map.length = 1) := by
  refine ⟨rfl, rfl, rfl, rfl, rfl, ?_⟩
  intro meas style ch dpr g s' hws hok
  have hres : atlasReset s = atlasInit := rfl
  rw [hres] at hok ⊢
  unfold getGlyph at hok
  simp only [atlasInit, atlasReset, mapGet] at hok
  rw [hws] at hok
  simp only [Bool.false_eq_true, if_false] at hok
  rcases hA : allocGlyphSlot { x := 2, y := 2, rowH := 0 }
      (computeCell style dpr (meas style ch dpr)).w
      (computeCell style dpr (meas style ch dpr)).h with ⟨o, c1⟩
  rw [hA] at hok
  cases o with
  | none => exact absurd hok (by simp)
  | some pos =>
    dsimp only at hok
    rw [Except.ok.injEq, Prod.mk.injEq] at hok
    obtain ⟨hg, hs'⟩ := hok
    obtain ⟨_, _, hx, _, _, _⟩ := alloc_some_eq hA
    subst hs'
    refine ⟨?_, rfl⟩
    intro hc
    have hcx : c1.x = 2 := congrArg Cursor.x hc
    rcases wrapCursor_cases { x := 2, y := 2, rowH := 0 } _ with ⟨hwr, _⟩ | ⟨hwr, _⟩ <;>
      rw [hwr] at hx <;> simp only at hx <;> omega

set_option maxRecDepth 3000 in
/-- C7 witness: resetting a dirty atlas and asking for `"D"` again packs a
fresh cell. -/
theorem reset_restores_initial_witness :
    isWs "D" = false ∧
    getGlyph c7Meas (atlasReset c7Dirty) plainStyle "D" 1 = .ok (c7Glyph, c7End) ∧
    c7End.cursor ≠ (atlasReset c7Dirty).cursor ∧ c7End.map.length = 1 := by
  refine ⟨by decide, by with_unfolding_all rfl, ?_⟩
  exact (reset_restores_initial c7Dirty).2.2.2.2.2 c7Meas plainStyle "D" 1 c7Glyph c7End
    (by decide) (by with_unfolding_all rfl)

set_option maxRecDepth 3000 in
/-- C9 counterexample: the claim asserts `baselineX ≥ 1` for every
non-empty glyph, but when the browser reports a negative
`actualBoundingBoxLeft` (here `-1/2` at `dpr = 1`, so `pad = 1`),
`getGlyph` returns a non-empty glyph with `baselineX = pad + left = 1/2 <
1`. -/
theorem glyph_baseline_cex :
    c9NonEmpty = true ∧ c9BaselineX = 1/2 ∧ ¬ (1 ≤ c9BaselineX) := by
  refine ⟨by with_unfolding_all rfl, by with_unfolding_all rfl, ?_⟩
  intro hle
  rw [show c9BaselineX = 1/2 from by with_unfolding_all rfl] at hle
  norm_num at hle

/-- C9 (amended): every freshly rasterized non-empty glyph has pixel
dimensions `w ≥ 1` and `h ≥ 1` and a strictly non-degenerate UV rectangle
(`u0 < u1`, `v0 < v1`); its baseline offsets satisfy `baselineX ≥ 1`
whenever the measured left extent is non-negative and `baselineY ≥ 1`
whenever the measured ascent is positive (the code does not clamp the
measured extents, so negative metrics can push a baseline offset below
the one-pixel pad). -/
theorem glyph_nonEmpty_bounds (meas : MeasureFn) (s : AtlasState) (style : FontStyle)
    (ch : String) (dpr : ℚ) (g : CachedGlyph) (s' : AtlasState)
    (hws : isWs ch = false)
    (hmiss : mapGet s.map (glyphKey style ch dpr) = none)
    (hok : getGlyph meas s style ch dpr = .ok (g, s')) :
    g ≠ .empty ∧ 1 ≤ glyphWpx g ∧ 1 ≤ glyphHpx g ∧
    glyphU0 g < glyphU1 g ∧ glyphV0 g < glyphV1 g ∧
    (0 ≤ (meas style ch dpr).actualBoundingBoxLeft → 1 ≤ glyphBaselineX g) ∧
    (0 < (meas style ch dpr).actualBoundingBoxAscent → 1 ≤ glyphBaselineY g) := by
  unfold getGlyph at hok
  rw [hmiss, hws] at hok
  simp only [Bool.false_eq_true, if_false] at hok
  rcases hA : allocGlyphSlot s.cursor (computeCell style dpr (meas style ch dpr)).w
      (computeCell style dpr (meas style ch dpr)).h with ⟨o, c1⟩
  rw [hA] at hok
  cases o with
  | none => exact absurd hok (by simp)
  | some pos =>
    dsimp only at hok
    rw [Except.ok.injEq, Prod.mk.injEq] at hok
    obtain ⟨hg, _⟩ := hok
    subst hg
    obtain ⟨hw1, hh1⟩ := computeCell_dims_pos style dpr (meas style ch dpr)
    have hWpos : (0 : ℚ) < (atlasW : ℚ) := by norm_num [atlasW]
    have hHpos : (0 : ℚ) < (atlasH : ℚ) := by norm_num [atlasH]
    refine ⟨by simp [glyphU0], hw1, hh1, ?_, ?_, ?_, ?_⟩
    · exact (div_lt_div_iff_of_pos_right hWpos).mpr (by exact_mod_cast (by omega : pos.1 < pos.1 + (computeCell style dpr (meas style ch dpr)).w))
    · exact (div_lt_div_iff_of_pos_right hHpos).mpr (by exact_mod_cast (by omega : pos.2 < pos.2 + (computeCell style dpr (meas style ch dpr)).h))
    · intro hL
      show 1 ≤ (computeCell style dpr (meas style ch dpr)).baselineX
      unfold computeCell
      simp only
      have hpad : (1 : ℚ) ≤ ((max 1 ⌈dpr⌉ : ℤ) : ℚ) := by
        exact_mod_cast le_max_left (1 : ℤ) ⌈dpr⌉
      have hjs : 0 ≤ jsOr (meas style ch dpr).actualBoundingBoxLeft 0 := by
        unfold jsOr
        split_ifs
        · exact le_refl 0
        · exact hL
      linarith
    · intro hAsc
      show 1 ≤ (computeCell style dpr (meas style ch dpr)).baselineY
      unfold computeCell
      simp only
      have hpad : (1 : ℚ) ≤ ((max 1 ⌈dpr⌉ : ℤ) : ℚ) := by
        exact_mod_cast le_max_left (1 : ℤ) ⌈dpr⌉
      have hjs : 0 < jsOr (meas style ch dpr).actualBoundingBoxAscent
          (parsePx (some style.fontSize) 16 * dpr * 0.8) := by
        unfold jsOr
        split_ifs with h0
        · exact absurd (h0 ▸ hAsc) (lt_irrefl 0)
        · exact hAsc
      linarith

set_option maxRecDepth 3000 in
/-- C9 witness: with non-negative measured extents the fresh glyph for
`"E"` satisfies all the amended bounds. -/
theorem glyph_nonEmpty_bounds_witness :
    isWs "E" = false ∧
    mapGet atlasInit.map (glyphKey plainStyle "E" 1) = none ∧
    getGlyph c9wMeas atlasInit plainStyle "E" 1 = .ok (c9wGlyph, c9wState) ∧
    (c9wGlyph ≠ .empty ∧ 1 ≤ glyphWpx c9wGlyph ∧ 1 ≤ glyphHpx c9wGlyph ∧
     glyphU0 c9wGlyph < glyphU1 c9wGlyph ∧ glyphV0 c9wGlyph < glyphV1 c9wGlyph ∧
     (0 ≤ (c9wMeas plainStyle "E" 1).actualBoundingBoxLeft → 1 ≤ glyphBaselineX c9wGlyph) ∧
     (0 < (c9wMeas plainStyle "E" 1).actualBoundingBoxAscent → 1 ≤ glyphBaselineY c9wGlyph)) :=
  ⟨by decide, by decide, by with_unfolding_all rfl,
    glyph_nonEmpty_bounds c9wMeas atlasInit plainStyle "E" 1 c9wGlyph c9wState
      (by decide) (by decide) (by with_unfolding_all rfl)⟩

/-- C10: the shelf allocator guards only vertical overflow — it wraps at
most once per call and never re-checks the atlas width after wrapping.
For any fresh request whose padded cell is at least 4095 pixels wide
(with a height that still fits under the wrapped row), `getGlyph`
succeeds with no atlas-full error and returns a glyph whose cell starts
at `x = 2` and whose `u1 = (2 + w)/4096` exceeds `1`: the packed region
extends past the right edge of the atlas. -/
theorem alloc_width_unchecked (meas : MeasureFn) (s : AtlasState) (style : FontStyle)
    (ch : String) (dpr : ℚ)
    (hws : isWs ch = false)
    (hmiss : mapGet s.map (glyphKey style ch dpr) = none)
    (hx : 2 ≤ s.cursor.x)
    (hw : 4095 ≤ (computeCell style dpr (meas style ch dpr)).w)
    (hh : s.cursor.y + s.cursor.rowH + 1 + (computeCell style dpr (meas style ch dpr)).h <
      4096) :
    (getGlyph meas s style ch dpr).isOk = true ∧
    resultU0 (getGlyph meas s style ch dpr) = some ((2 : ℚ) / (atlasW : ℚ)) ∧
    resultU1 (getGlyph meas s style ch dpr) =
      some (((2 + (computeCell style dpr (meas style ch dpr)).w : ℕ) : ℚ) / (atlasW : ℚ)) ∧
    1 < ((2 + (computeCell style dpr (meas style ch dpr)).w : ℕ) : ℚ) / (atlasW : ℚ) := by
  have hwrap : wrapCursor s.cursor (computeCell style dpr (meas style ch dpr)).w =
      { x := 2, y := s.cursor.y + s.cursor.rowH + 1, rowH := 0 } := by
    unfold wrapCursor
    rw [if_pos]
    show atlasW ≤ s.cursor.x + (computeCell style dpr (meas style ch dpr)).w
    unfold atlasW
    omega
  have hA : allocGlyphSlot s.cursor (computeCell style dpr (meas style ch dpr)).w
      (computeCell style dpr (meas style ch dpr)).h =
      (some (2, s.cursor.y + s.cursor.rowH + 1),
        { x := 2 + (computeCell style dpr (meas style ch dpr)).w + 1
          y := s.cursor.y + s.cursor.rowH + 1
          rowH := max 0 (computeCell style dpr (meas style ch dpr)).h }) := by
    unfold allocGlyphSlot
    rw [hwrap]
    simp only
    rw [if_neg]
    show ¬ (atlasH ≤ s.cursor.y + s.cursor.rowH + 1 +
      (computeCell style dpr (meas style ch dpr)).h)
    unfold atlasH
    omega
  have hrun : getGlyph meas s style ch dpr =
      .ok (CachedGlyph.glyph (((2 : ℕ) : ℚ) / (atlasW : ℚ))
            (((s.cursor.y + s.cursor.rowH + 1 : ℕ) : ℚ) / (atlasH : ℚ))
            (((2 + (computeCell style dpr (meas style ch dpr)).w : ℕ) : ℚ) / (atlasW : ℚ))
            (((s.cursor.y + s.cursor.rowH + 1 +
                (computeCell style dpr (meas style ch dpr)).h : ℕ) : ℚ) / (atlasH : ℚ))
            (computeCell style dpr (meas style ch dpr)).w
            (computeCell style dpr (meas style ch dpr)).h
            (computeCell style dpr (meas style ch dpr)).baselineX
            (computeCell style dpr (meas style ch dpr)).baselineY,
          { s with
              cursor :=
                { x := 2 + (computeCell style dpr (meas style ch dpr)).w + 1
                  y := s.cursor.y + s.cursor.rowH + 1
                  rowH := max 0 (computeCell style dpr (meas style ch dpr)).h }
              map := (glyphKey style ch dpr,
                CachedGlyph.glyph (((2 : ℕ) : ℚ) / (atlasW : ℚ))
                  (((s.cursor.y + s.cursor.rowH + 1 : ℕ) : ℚ) / (atlasH : ℚ))
                  (((2 + (computeCell style dpr (meas style ch dpr)).w : ℕ) : ℚ) / (atlasW : ℚ))
                  (((s.cursor.y + s.cursor.rowH + 1 +
                      (computeCell style dpr (meas style ch dpr)).h : ℕ) : ℚ) / (atlasH : ℚ))
                  (computeCell style dpr (meas style ch dpr)).w
                  (computeCell style dpr (meas style ch dpr)).h
                  (computeCell style dpr (meas style ch dpr)).baselineX
                  (computeCell style dpr (meas style ch dpr)).baselineY) :: s.map }) := by
    unfold getGlyph
    rw [hmiss, hws]
    simp only [Bool.false_eq_true, if_false]
    rw [hA]
  rw [hrun]
  have hlt : (1 : ℚ) <
      ((2 + (computeCell style dpr (meas style ch dpr)).w : ℕ) : ℚ) / (atlasW : ℚ) := by
    rw [one_lt_div (by norm_num [atlasW] : (0 : ℚ) < (atlasW : ℚ))]
    have : atlasW < 2 + (computeCell style dpr (meas style ch dpr)).w := by
      unfold atlasW
      omega
    exact_mod_cast this
  refine ⟨rfl, ?_, ?_, hlt⟩
  · simp [resultU0, glyphU0]
  · simp [resultU1, glyphU1]

set_option maxRecDepth 3000 in
/-- C10 witness: a 4202-pixel-wide cell on a fresh atlas wraps once, packs
at `x = 2`, and yields `u1 = 4204/4096 > 1`. -/
theorem alloc_width_unchecked_witness :
    isWs "W" = false ∧
    mapGet atlasInit.map (glyphKey plainStyle "W" 1) = none ∧
    2 ≤ atlasInit.cursor.x ∧
    4095 ≤ (computeCell plainStyle 1 (c10Meas plainStyle "W" 1)).w ∧
    atlasInit.cursor.y + atlasInit.cursor.rowH + 1 +
      (computeCell plainStyle 1 (c10Meas plainStyle "W" 1)).h < 4096 ∧
    ((getGlyph c10Meas atlasInit plainStyle "W" 1).isOk = true ∧
     resultU0 (getGlyph c10Meas atlasInit plainStyle "W" 1) = some ((2 : ℚ) / (atlasW : ℚ)) ∧
     resultU1 (getGlyph c10Meas atlasInit plainStyle "W" 1) =
       some (((2 + (computeCell plainStyle 1 (c10Meas plainStyle "W" 1)).w : ℕ) : ℚ) /
         (atlasW : ℚ)) ∧
     1 < ((2 + (computeCell plainStyle 1 (c10Meas plainStyle "W" 1)).w : ℕ) : ℚ) /
       (atlasW : ℚ)) :=
  ⟨by decide, by decide, by decide, by with_unfolding_all decide, by with_unfolding_all decide,
    alloc_width_unchecked c10Meas atlasInit plainStyle "W" 1 (by decide) (by decide)
      (by decide) (by with_unfolding_all decide) (by with_unfolding_all decide)⟩

/-- Helper for C4: after a successful `getGlyph`, repeating the same call
on the resulting state returns the identical glyph and leaves the state
unchanged (cache hit, no rasterization or packing). -/
theorem getGlyph_stable {meas : MeasureFn} {s : AtlasState} {style : FontStyle} {ch : String}
    {dpr : ℚ} {g : CachedGlyph} {s₁ : AtlasState}
    (hok : getGlyph meas s style ch dpr = .ok (g, s₁)) :
    getGlyph meas s₁ style ch dpr = .ok (g, s₁) := by
  unfold getGlyph at hok ⊢
  rcases hm : mapGet s.map (glyphKey style ch dpr) with _ | cached
  · rw [hm] at hok
    dsimp only at hok
    by_cases hws : isWs ch
    · rw [if_pos (by exact_mod_cast hws)] at hok
      rw [Except.ok.injEq, Prod.mk.injEq] at hok
      obtain ⟨hg, hs⟩ := hok
      subst hg
      subst hs
      simp [mapGet]
    · rw [if_neg (by exact_mod_cast hws)] at hok
      rcases hA : allocGlyphSlot s.cursor (computeCell style dpr (meas style ch dpr)).w
          (computeCell style dpr (meas style ch dpr)).h with ⟨o, c1⟩
      rw [hA] at hok
      cases o with
      | none => exact absurd hok (by simp)
      | some pos =>
        dsimp only at hok
        rw [Except.ok.injEq, Prod.mk.injEq] at hok
        obtain ⟨hg, hs⟩ := hok
        subst hg
        subst hs
        simp [mapGet]
  · rw [hm] at hok
    dsimp only at hok
    rw [Except.ok.injEq, Prod.mk.injEq] at hok
    obtain ⟨hg, hs⟩ := hok
    subst hg
    subst hs
    rw [hm]

/-- C4: repeated `getGlyph` calls for the same (style, character,
pixel-ratio) triple before a reset return the identical (by value)
`CachedGlyph` with no further rasterization or packing (the atlas state
is unchanged); consequently two placements sharing style and character
produce one rasterization (the final atlas state is the state after the
single first lookup) and two quads built from the same glyph — hence the
same UV rectangle. -/
theorem getGlyph_cache_idempotent :
    (∀ (meas : MeasureFn) (s : AtlasState) (style : FontStyle) (ch : String) (dpr : ℚ)
        (g : CachedGlyph) (s₁ : AtlasState),
      getGlyph meas s style ch dpr = .ok (g, s₁) →
      getGlyph meas s₁ style ch dpr = .ok (g, s₁)) ∧
    (∀ (meas : MeasureFn) (p q : Placement) (width height dpr : ℚ) (showWire : Bool)
        (g : CachedGlyph) (s₁ : AtlasState),
      p.style = q.style → p.ch = q.ch →
      getGlyph meas atlasInit p.style p.ch dpr = .ok (g, s₁) →
      buildVertices meas atlasInit [p, q] width height dpr showWire =
        .ok (placementFloats s₁.whitePixel width height dpr showWire p g ++
          (placementFloats s₁.whitePixel width height dpr showWire q g ++ []), s₁)) := by
  refine ⟨fun _ _ _ _ _ _ _ hok => getGlyph_stable hok, ?_⟩
  intro meas p q width height dpr showWire g s₁ hstyle hch hok
  have h2 : getGlyph meas s₁ q.style q.ch dpr = .ok (g, s₁) := by
    rw [← hstyle, ← hch]
    exact getGlyph_stable hok
  simp only [buildVertices, hok, h2]

set_option maxRecDepth 3000 in
/-- C4 witness: two placements of `"B"` with identical style but
different positions and colors; the first call packs the glyph, the
second is served from the cache, and both quads carry the same UV
rectangle. -/
theorem getGlyph_cache_idempotent_witness :
    c4P.style = c4Q.style ∧ c4P.ch = c4Q.ch ∧
    getGlyph c4Meas atlasInit c4P.style c4P.ch 1 = .ok (c4Glyph, c4State) ∧
    getGlyph c4Meas c4State c4P.style c4P.ch 1 = .ok (c4Glyph, c4State) ∧
    buildVertices c4Meas atlasInit [c4P, c4Q] 100 100 1 false =
      .ok (placementFloats c4State.whitePixel 100 100 1 false c4P c4Glyph ++
        (placementFloats c4State.whitePixel 100 100 1 false c4Q c4Glyph ++ []), c4State) :=
  ⟨rfl, rfl, by with_unfolding_all rfl,
    (getGlyph_cache_idempotent).1 c4Meas atlasInit c4P.style c4P.ch 1 c4Glyph c4State
      (by with_unfolding_all rfl),
    (getGlyph_cache_idempotent).2 c4Meas c4P c4Q 100 100 1 false c4Glyph c4State rfl rfl
      (by with_unfolding_all rfl)⟩

/-- Helper for C5: one quad is 72 floats (6 vertices × 12 floats). -/
theorem pushQuad_length (width height x y w h u0 v0 u1 v1 : ℚ) (color : Rgba)
    (uvBounds : UVRect) :
    (pushQuad width height x y w h u0 v0 u1 v1 color uvBounds).length = 72 :=
  rfl

/-- Helper for C5: the four border quads are 288 floats (24 vertices). -/
theorem wireFloats_length (wp : UVRect) (width height dpr : ℚ) (p : Placement) :
    (wireFloats wp width height dpr p).length = 288 := by
  unfold wireFloats
  simp only [List.length_append, pushQuad_length]

/-- Helper for C5: the floats one placement contributes — 72 for a
non-empty glyph quad plus 288 for the four debug border quads when the
wire condition holds. -/
theorem placementFloats_length (wp : UVRect) (width height dpr : ℚ) (showWire : Bool)
    (p : Placement) (g : CachedGlyph) :
    (placementFloats wp width height dpr showWire p g).length =
      (match g with | .empty => 0 | _ => 72) +
        (if wireCond showWire p then 288 else 0) := by
  cases g <;> unfold placementFloats <;> split_ifs with hw <;>
    simp only [List.length_append, List.length_nil, pushQuad_length, wireFloats_length]

/-- Helper for C5: the length of the vertex buffer is 72 floats per glyph
quad plus 288 floats per wire-outlined placement. -/
theorem buildVertices_length :
    ∀ (ps : List Placement) (meas : MeasureFn) (s : AtlasState) (width height dpr : ℚ)
      (showWire : Bool) (out : List ℚ) (s' : AtlasState) (gq : ℕ) (s'' : AtlasState),
      buildVertices meas s ps width height dpr showWire = .ok (out, s') →
      glyphQuadCount meas s ps dpr = .ok (gq, s'') →
      out.length = 72 * gq + 288 * (ps.countP (wireCond showWire)) := by
  intro ps
  induction ps with
  | nil =>
    intro meas s width height dpr showWire out s' gq s'' hB hQ
    unfold buildVertices at hB
    unfold glyphQuadCount at hQ
    rw [Except.ok.injEq, Prod.mk.injEq] at hB hQ
    obtain ⟨hB1, _⟩ := hB
    obtain ⟨hQ1, _⟩ := hQ
    subst hB1
    subst hQ1
    simp
  | cons p rest ih =>
    intro meas s width height dpr showWire out s' gq s'' hB hQ
    unfold buildVertices at hB
    unfold glyphQuadCount at hQ
    rcases hg : getGlyph meas s p.style p.ch dpr with e | ⟨g, s₁⟩ <;> rw [hg] at hB hQ
    · exact absurd hB (by simp)
    · dsimp only at hB hQ
      rcases hB' : buildVertices meas s₁ rest width height dpr showWire with e | ⟨out', s₂⟩ <;>
        rw [hB'] at hB
      · exact absurd hB (by simp)
      · rcases hQ' : glyphQuadCount meas s₁ rest dpr with e | ⟨n, s₃⟩ <;> rw [hQ'] at hQ
        · exact absurd hQ (by simp)
        · dsimp only at hB hQ
          rw [Except.ok.injEq, Prod.mk.injEq] at hB hQ
          obtain ⟨hB1, _⟩ := hB
          obtain ⟨hQ1, _⟩ := hQ
          subst hB1
          subst hQ1
          have hrest := ih meas s₁ width height dpr showWire out' s₂ n s₃ hB' hQ'
          rw [List.length_append, placementFloats_length, hrest, List.countP_cons]
          cases g <;> split_ifs <;> simp <;> ring

set_option maxRecDepth 3000 in
/-- C5: the geometry builder emits `6 × (quads produced)` vertices — 12
floats per vertex, one 6-vertex quad per placement whose glyph is
non-empty, and in debug mode four extra border quads (24 vertices) per
placement whose box width exceeds the `0.35` threshold; on the spec
scenario (one non-empty placement, `boxW = 10`, canvas 100×100,
`dpr = 1`) the derived vertex count is 6 without debug and 30 with
debug. -/
theorem buildVertices_vertex_count :
    (∀ (ps : List Placement) (meas : MeasureFn) (s : AtlasState) (width height dpr : ℚ)
        (showWire : Bool) (out : List ℚ) (s' : AtlasState) (gq : ℕ) (s'' : AtlasState),
      buildVertices meas s ps width height dpr showWire = .ok (out, s') →
      glyphQuadCount meas s ps dpr = .ok (gq, s'') →
      out.length = 12 * (6 * gq + 24 * (ps.countP (wireCond showWire)))) ∧
    c5VertexCount false = 6 ∧ c5VertexCount true = 30 := by
  refine ⟨?_, ?_, ?_⟩
  · intro ps meas s width height dpr showWire out s' gq s'' hB hQ
    rw [buildVertices_length ps meas s width height dpr showWire out s' gq s'' hB hQ]
    ring
  · with_unfolding_all rfl
  · with_unfolding_all rfl

set_option maxRecDepth 3000 in
/-- C5 witness: the general float-count formula instantiated on the spec
scenario run. -/
theorem buildVertices_vertex_count_witness :
    buildVertices c5Meas atlasInit [c5Placement] 100 100 1 false = .ok (c5Out, c5End) ∧
    glyphQuadCount c5Meas atlasInit [c5Placement] 1 = .ok (c5Gq, c5End2) ∧
    c5Out.length = 12 * (6 * c5Gq + 24 * ([c5Placement].countP (wireCond false))) :=
  ⟨by with_unfolding_all rfl, by with_unfolding_all rfl,
    (buildVertices_vertex_count).1 [c5Placement] c5Meas atlasInit 100 100 1 false
      c5Out c5End c5Gq c5End2 (by with_unfolding_all rfl) (by with_unfolding_all rfl)⟩

end WebGLText
